import Mathlib

/-!
Verification of the loan/inventory logic of the library-management service
(`src/api/main.py`).

The service keeps three MySQL tables (`members`, `books`, `loans`) and mutates
them through FastAPI endpoint functions.  We embed the database state as lists
of records and each endpoint function as a Lean function on that state,
following the Python source statement by statement.  Dates (`date.today()`,
SQL `CURDATE()`) are modelled as an abstract day number `today : Nat` passed
to each operation that reads the clock.  SQL behaviour is modelled as in the
source queries: `SELECT ... WHERE id = x` with `fetchone` is `List.find?`,
`UPDATE ... WHERE id = x` maps over all matching rows, `DELETE ... WHERE
id = x` filters them out, and the auto-increment id of an `INSERT` is a
`nextLoanId` counter carried in the state.

Each state-changing endpoint runs inside one connection whose statements can
each raise a `mysql.connector.Error`; the `except Error` branch rolls the
transaction back.  To reason about mid-operation failures we embed each loan
endpoint as a *failure-injected* function parameterised by `fail : Nat → Bool`
telling which numbered database call raises; the plain endpoint is the run in
which no call fails.  A statement that fails before `conn.commit()` leaves the
committed state at the initial state (rollback / connection close without
commit); a statement that fails after `conn.commit()` leaves the committed
state at the transaction's result (the `conn.rollback()` in the handler is a
no-op once the transaction has committed).

`cursor.lastrowid` is refreshed from every executed statement's result, so
when `create_loan` reads it after the `UPDATE books` statement it gets 0,
not the inserted loan's id; the embedding models its post-commit fetch as a
lookup of loan id 0.
-/

/-- A row of the `members` table (`Member` model in `main.py`). -/
structure Member where
  member_id : Nat
  first_name : String
  last_name : String
  email : String
  phone_number : Option String
  membership_status : String
deriving DecidableEq, Repr

/-- A row of the `books` table (`Book` model in `main.py`).  The copy counters
are pydantic `int` fields, so they are embedded as `Int`. -/
structure Book where
  book_id : Nat
  isbn : String
  title : String
  author : String
  genre : Option String
  available_copies : Int
  total_copies : Int
deriving DecidableEq, Repr

/-- A row of the `loans` table (`Loan` model in `main.py`).  Dates are day
numbers; `return_date` is `NULL` (`none`) until the loan is returned. -/
structure Loan where
  loan_id : Nat
  book_id : Nat
  member_id : Nat
  loan_date : Nat
  due_date : Nat
  status : String
  return_date : Option Nat
deriving DecidableEq, Repr

/-- The request body of `POST /loans/` (`LoanCreate` in `main.py`): pydantic
fills `status` with `"Borrowed"` when the client omits it, but a client may
supply any string. -/
structure LoanCreate where
  book_id : Nat
  member_id : Nat
  due_date : Option Nat
  status : String
deriving DecidableEq, Repr

/-- The request body of `PUT /books/{id}` (`BookBase` in `main.py`). -/
structure BookBase where
  isbn : String
  title : String
  author : String
  genre : Option String
  available_copies : Int
  total_copies : Int
deriving DecidableEq, Repr

/-- The database state: the three tables plus the `loans` auto-increment
counter. -/
structure St where
  members : List Member
  books : List Book
  loans : List Loan
  nextLoanId : Nat
deriving DecidableEq, Repr

/-- An error response: `HTTPException(status_code, detail)`. -/
structure ApiErr where
  status_code : Nat
  detail : String
deriving DecidableEq, Repr

/-- The 500 response produced by the `except Error` handler
(`Database error: ...`). -/
def storageErr : ApiErr := ⟨500, "Database error"⟩

/-- The 500 response FastAPI produces when the endpoint function returns
`None` and `response_model` validation fails.  `create_loan` hits this on
every realistic run: it reads `cursor.lastrowid` only after the intervening
`UPDATE books` statement, which has reset it to 0, so its post-commit
`SELECT * FROM loans WHERE loan_id = 0` fetches no row. -/
def validationErr : ApiErr := ⟨500, "Internal Server Error"⟩

/-- `SELECT * FROM books WHERE book_id = %s` + `fetchone()`. -/
def findBook (s : St) (id : Nat) : Option Book :=
  s.books.find? (fun b => b.book_id == id)

/-- `SELECT * FROM members WHERE member_id = %s` + `fetchone()`. -/
def findMember (s : St) (id : Nat) : Option Member :=
  s.members.find? (fun m => m.member_id == id)

/-- `SELECT * FROM loans WHERE loan_id = %s` + `fetchone()`. -/
def findLoan (s : St) (id : Nat) : Option Loan :=
  s.loans.find? (fun l => l.loan_id == id)

/-- `UPDATE books SET available_copies = available_copies + delta WHERE
book_id = %s` applied to a table. -/
def adjustBooks (books : List Book) (id : Nat) (delta : Int) : List Book :=
  books.map (fun b =>
    if b.book_id == id then { b with available_copies := b.available_copies + delta } else b)

/-- `create_loan` (`POST /loans/`), failure-injected.  Database calls are
numbered in source order: 0 book lookup, 1 member lookup, 2 loan insert,
3 availability update, 4 commit, 5 post-commit fetch.  The fetch looks up
`loan_id = cursor.lastrowid`, and `lastrowid` is refreshed by every executed
statement: the `UPDATE books` after the insert has reset it to 0, so the
fetch is by id 0, finds no row whenever the table has no id-0 row (always,
with MySQL auto-increment ids), and the endpoint then returns `None`, which
`response_model=Loan` turns into a 500. -/
def create_loanFI (fail : Nat → Bool) (today : Nat) (s : St) (loan : LoanCreate) :
    St × Except ApiErr Loan :=
  if fail 0 then (s, .error storageErr) else
  match findBook s loan.book_id with
  | none => (s, .error ⟨404, "Book not found"⟩)
  | some book =>
    if book.available_copies ≤ 0 then (s, .error ⟨400, "Book not available for loan"⟩) else
    if fail 1 then (s, .error storageErr) else
    match findMember s loan.member_id with
    | none => (s, .error ⟨404, "Member not found"⟩)
    | some _ =>
      let due_date := loan.due_date.getD (today + 14)
      if fail 2 then (s, .error storageErr) else
      let row : Loan :=
        { loan_id := s.nextLoanId, book_id := loan.book_id, member_id := loan.member_id,
          loan_date := today, due_date := due_date, status := loan.status, return_date := none }
      let s1 : St := { s with loans := s.loans ++ [row], nextLoanId := s.nextLoanId + 1 }
      if fail 3 then (s, .error storageErr) else
      let s2 : St := { s1 with books := adjustBooks s1.books loan.book_id (-1) }
      if fail 4 then (s, .error storageErr) else
      if fail 5 then (s2, .error storageErr) else
      (s2, match findLoan s2 0 with
           | none => .error validationErr
           | some created => .ok created)

/-- `create_loan` in the run where no database call raises. -/
def create_loan (today : Nat) (s : St) (loan : LoanCreate) : St × Except ApiErr Loan :=
  create_loanFI (fun _ => false) today s loan

/-- `return_book` (`PUT /loans/{id}/return`), failure-injected.  Database
calls in source order: 0 loan lookup, 1 loan update, 2 availability update,
3 commit, 4 post-commit fetch of the updated loan. -/
def return_bookFI (fail : Nat → Bool) (today : Nat) (s : St) (loan_id : Nat) :
    St × Except ApiErr Loan :=
  if fail 0 then (s, .error storageErr) else
  match findLoan s loan_id with
  | none => (s, .error ⟨404, "Loan not found"⟩)
  | some loan =>
    if loan.status == "Returned" then (s, .error ⟨400, "Book already returned"⟩) else
    if fail 1 then (s, .error storageErr) else
    let s1 : St := { s with loans := s.loans.map (fun l =>
      if l.loan_id == loan_id then { l with status := "Returned", return_date := some today }
      else l) }
    if fail 2 then (s, .error storageErr) else
    let s2 : St := { s1 with books := adjustBooks s1.books loan.book_id 1 }
    if fail 3 then (s, .error storageErr) else
    if fail 4 then (s2, .error storageErr) else
    (s2, match findLoan s2 loan_id with
         | none => .error storageErr
         | some updated => .ok updated)

/-- `return_book` in the run where no database call raises. -/
def return_book (today : Nat) (s : St) (loan_id : Nat) : St × Except ApiErr Loan :=
  return_bookFI (fun _ => false) today s loan_id

/-- `delete_loan` (`DELETE /loans/{id}`), failure-injected.  Database calls
in source order: 0 loan lookup, 1 availability update (only when the stored
status is `"Borrowed"`), 2 row delete, 3 commit.  No statement follows the
commit. -/
def delete_loanFI (fail : Nat → Bool) (s : St) (loan_id : Nat) : St × Except ApiErr Unit :=
  if fail 0 then (s, .error storageErr) else
  match findLoan s loan_id with
  | none => (s, .error ⟨404, "Loan not found"⟩)
  | some loan =>
    if loan.status == "Borrowed" then
      if fail 1 then (s, .error storageErr) else
      let s1 : St := { s with books := adjustBooks s.books loan.book_id 1 }
      if fail 2 then (s, .error storageErr) else
      let s2 : St := { s1 with loans := s1.loans.filter (fun l => l.loan_id != loan_id) }
      if fail 3 then (s, .error storageErr) else
      (s2, .ok ())
    else
      if fail 2 then (s, .error storageErr) else
      let s2 : St := { s with loans := s.loans.filter (fun l => l.loan_id != loan_id) }
      if fail 3 then (s, .error storageErr) else
      (s2, .ok ())

/-- `delete_loan` in the run where no database call raises. -/
def delete_loan (s : St) (loan_id : Nat) : St × Except ApiErr Unit :=
  delete_loanFI (fun _ => false) s loan_id

/-- `delete_member` (`DELETE /members/{id}`): active-loan check, existence
check, then delete. -/
def delete_member (s : St) (member_id : Nat) : St × Except ApiErr Unit :=
  match s.loans.find? (fun l => l.member_id == member_id && l.status != "Returned") with
  | some _ => (s, .error ⟨400, "Cannot delete member with active loans"⟩)
  | none =>
    match findMember s member_id with
    | none => (s, .error ⟨404, "Member not found"⟩)
    | some _ => ({ s with members := s.members.filter (fun m => m.member_id != member_id) }, .ok ())

/-- `delete_book` (`DELETE /books/{id}`): active-loan check, existence check,
then delete. -/
def delete_book (s : St) (book_id : Nat) : St × Except ApiErr Unit :=
  match s.loans.find? (fun l => l.book_id == book_id && l.status != "Returned") with
  | some _ => (s, .error ⟨400, "Cannot delete book with active loans"⟩)
  | none =>
    match findBook s book_id with
    | none => (s, .error ⟨404, "Book not found"⟩)
    | some _ => ({ s with books := s.books.filter (fun b => b.book_id != book_id) }, .ok ())

/-- `update_book` (`PUT /books/{id}`): existence check, unconditional field
overwrite with the client-supplied values (the copy counters included), then
re-fetch of the updated row. -/
def update_book (s : St) (book_id : Nat) (book : BookBase) : St × Except ApiErr Book :=
  match findBook s book_id with
  | none => (s, .error ⟨404, "Book not found"⟩)
  | some _ =>
    let s1 : St := { s with books := s.books.map (fun b =>
      if b.book_id == book_id then
        { book_id := b.book_id, isbn := book.isbn, title := book.title, author := book.author,
          genre := book.genre, available_copies := book.available_copies,
          total_copies := book.total_copies }
      else b) }
    match findBook s1 book_id with
    | none => (s1, .error storageErr)
    | some updated => (s1, .ok updated)

/-- The counter invariant of the spec: every item row satisfies
`0 ≤ available_copies ≤ total_copies`. -/
def booksOk (s : St) : Prop :=
  ∀ b ∈ s.books, 0 ≤ b.available_copies ∧ b.available_copies ≤ b.total_copies

instance (s : St) : Decidable (booksOk s) := by
  unfold booksOk; infer_instance

/-- `book_id` is the primary key of `books`: rows have pairwise distinct ids. -/
def uniqueBookIds (s : St) : Prop :=
  s.books.Pairwise (fun a b => a.book_id ≠ b.book_id)

instance (s : St) : Decidable (uniqueBookIds s) := by
  unfold uniqueBookIds; infer_instance

/-- `loan_id` is an auto-increment primary key: the next generated id is not
already present in the table. -/
def freshLoanId (s : St) : Prop :=
  ∀ l ∈ s.loans, l.loan_id ≠ s.nextLoanId

instance (s : St) : Decidable (freshLoanId s) := by
  unfold freshLoanId; infer_instance

/-! ### Transaction effects

For each loan endpoint we name the state its transaction commits on the
success path; the atomicity results below show that every run of the
failure-injected endpoint leaves either the initial state or this state. -/

/-- The row inserted by `create_loan`'s `INSERT INTO loans`: `loan_date` is
`CURDATE()`, `due_date` defaults to `today + 14 days`, `status` is the
client-supplied field, the id is the generated auto-increment id. -/
def newLoanRow (today : Nat) (s : St) (loan : LoanCreate) : Loan :=
  { loan_id := s.nextLoanId, book_id := loan.book_id, member_id := loan.member_id,
    loan_date := today, due_date := loan.due_date.getD (today + 14), status := loan.status,
    return_date := none }

/-- The combined write set of `create_loan`'s transaction: the inserted loan
row together with the availability decrement. -/
def applyCreate (today : Nat) (s : St) (loan : LoanCreate) : St :=
  { s with books := adjustBooks s.books loan.book_id (-1),
           loans := s.loans ++ [newLoanRow today s loan],
           nextLoanId := s.nextLoanId + 1 }

/-- The combined write set of `return_book`'s transaction: the status /
return-date update together with the availability increment. -/
def applyReturn (today : Nat) (s : St) (loan_id : Nat) : St :=
  match findLoan s loan_id with
  | none => s
  | some loan =>
    { s with books := adjustBooks s.books loan.book_id 1,
             loans := s.loans.map (fun l =>
               if l.loan_id == loan_id then
                 { l with status := "Returned", return_date := some today }
               else l) }

/-- The combined write set of `delete_loan`'s transaction: the row deletion
together with the availability increment when the stored status is
`"Borrowed"`. -/
def applyDeleteLoan (s : St) (loan_id : Nat) : St :=
  match findLoan s loan_id with
  | none => s
  | some loan =>
    if loan.status == "Borrowed" then
      { s with books := adjustBooks s.books loan.book_id 1,
               loans := s.loans.filter (fun l => l.loan_id != loan_id) }
    else
      { s with loans := s.loans.filter (fun l => l.loan_id != loan_id) }

/-! ### Helper lemmas -/

/-- `find?` by key commutes with a map that preserves the key. -/
lemma find?_map_key {α β : Type} [BEq β] (key : α → β) (f : α → α)
    (hf : ∀ x, key (f x) = key x) (k : β) (L : List α) :
    (L.map f).find? (fun x => key x == k) = (L.find? (fun x => key x == k)).map f := by
  rw [List.find?_map]
  have hp : ((fun x => key x == k) ∘ f) = (fun x => key x == k) := by
    funext x; simp [Function.comp, hf]
  rw [hp]

/-- In a table with pairwise-distinct keys, any member matching the looked-up
key is the row `find?` returns. -/
lemma eq_of_mem_find?_uniqueKeys {α β : Type} [DecidableEq β] (key : α → β)
    {L : List α} (hu : L.Pairwise (fun a b => key a ≠ key b)) {bk b : α} {k : β}
    (hf : L.find? (fun x => key x == k) = some bk) (hb : b ∈ L) (hk : key b = k) :
    b = bk := by
  induction L with
  | nil => cases hb
  | cons a t ih =>
    rw [List.pairwise_cons] at hu
    rw [List.find?_cons] at hf
    rw [List.mem_cons] at hb
    by_cases ha : key a = k
    · simp only [ha, beq_self_eq_true] at hf
      cases hf
      rcases hb with rfl | hb
      · rfl
      · exact absurd (ha.trans hk.symm) (hu.1 b hb)
    · have hfa : (key a == k) = false := by simp [ha]
      rw [hfa] at hf
      rcases hb with rfl | hb
      · exact absurd hk ha
      · exact ih hu.2 hf hb

/-- `find?` skips a prefix none of whose elements satisfies the predicate. -/
lemma find?_append_of_none {α : Type} {p : α → Bool} {l1 l2 : List α}
    (h : l1.find? p = none) : (l1 ++ l2).find? p = l2.find? p := by
  rw [List.find?_append, h, Option.none_or]

lemma create_loan_book_none {today : Nat} {s : St} {loan : LoanCreate}
    (h : findBook s loan.book_id = none) :
    create_loan today s loan = (s, .error ⟨404, "Book not found"⟩) := by
  simp [create_loan, create_loanFI, h]

lemma create_loan_unavailable {today : Nat} {s : St} {loan : LoanCreate} {book : Book}
    (hb : findBook s loan.book_id = some book) (hav : book.available_copies ≤ 0) :
    create_loan today s loan = (s, .error ⟨400, "Book not available for loan"⟩) := by
  simp [create_loan, create_loanFI, hb, hav]

lemma create_loan_member_none {today : Nat} {s : St} {loan : LoanCreate} {book : Book}
    (hb : findBook s loan.book_id = some book) (hav : ¬ book.available_copies ≤ 0)
    (hm : findMember s loan.member_id = none) :
    create_loan today s loan = (s, .error ⟨404, "Member not found"⟩) := by
  simp [create_loan, create_loanFI, hb, hav, hm]

lemma create_loan_go {today : Nat} {s : St} {loan : LoanCreate} {book : Book} {m : Member}
    (hb : findBook s loan.book_id = some book) (hav : ¬ book.available_copies ≤ 0)
    (hm : findMember s loan.member_id = some m) :
    create_loan today s loan =
      (applyCreate today s loan,
       match findLoan (applyCreate today s loan) 0 with
       | none => .error validationErr
       | some created => .ok created) := by
  simp only [create_loan, create_loanFI, hb, hav, hm, applyCreate, newLoanRow, adjustBooks]
  simp only [Bool.false_eq_true, if_false]

lemma findLoan_applyCreate {today : Nat} {s : St} {loan : LoanCreate}
    (hfresh : freshLoanId s) :
    findLoan (applyCreate today s loan) s.nextLoanId = some (newLoanRow today s loan) := by
  unfold findLoan applyCreate
  simp only []
  rw [find?_append_of_none]
  · simp [newLoanRow]
  · rw [List.find?_eq_none]
    intro l hl
    simp [hfresh l hl]

lemma findLoan_applyCreate_zero {today : Nat} {s : St} {loan : LoanCreate}
    (h0 : ∀ l ∈ s.loans, l.loan_id ≠ 0) (hn0 : s.nextLoanId ≠ 0) :
    findLoan (applyCreate today s loan) 0 = none := by
  unfold findLoan applyCreate
  simp only []
  rw [List.find?_eq_none]
  intro x hx
  rw [List.mem_append] at hx
  rcases hx with hx | hx
  · simp [h0 x hx]
  · rw [List.mem_singleton] at hx
    subst hx
    simp [newLoanRow, hn0]

lemma create_loanFI_states (fail : Nat → Bool) (today : Nat) (s : St) (loan : LoanCreate) :
    (create_loanFI fail today s loan).1 = s ∨
      (create_loanFI fail today s loan).1 = applyCreate today s loan := by
  unfold create_loanFI
  repeat' split
  all_goals try (left; rfl)
  all_goals (right; simp [applyCreate, newLoanRow, adjustBooks])

lemma return_bookFI_states (fail : Nat → Bool) (today : Nat) (s : St) (loan_id : Nat) :
    (return_bookFI fail today s loan_id).1 = s ∨
      (return_bookFI fail today s loan_id).1 = applyReturn today s loan_id := by
  unfold return_bookFI
  repeat' split
  all_goals try (left; rfl)
  all_goals (right; simp_all [applyReturn])

lemma delete_loanFI_states (fail : Nat → Bool) (s : St) (loan_id : Nat) :
    (delete_loanFI fail s loan_id).1 = s ∨
      (delete_loanFI fail s loan_id).1 = applyDeleteLoan s loan_id := by
  unfold delete_loanFI
  repeat' split
  all_goals try (left; rfl)
  all_goals (right; simp_all [applyDeleteLoan])

lemma find?_adjustBooks (books : List Book) (id aid : Nat) (delta : Int) :
    (adjustBooks books aid delta).find? (fun b => b.book_id == id) =
      (books.find? (fun b => b.book_id == id)).map (fun b =>
        if b.book_id == aid then { b with available_copies := b.available_copies + delta }
        else b) := by
  unfold adjustBooks
  rw [List.find?_map]
  have hp : ((fun b : Book => b.book_id == id) ∘ (fun b =>
      if b.book_id == aid then { b with available_copies := b.available_copies + delta }
      else b)) = (fun b : Book => b.book_id == id) := by
    funext b
    by_cases h : b.book_id == aid <;> simp [Function.comp, h]
  rw [hp]

lemma findBook_adjust {s : St} {id : Nat} (delta : Int) {b : Book}
    (h : findBook s id = some b) :
    (adjustBooks s.books id delta).find? (fun x => x.book_id == id) =
      some { b with available_copies := b.available_copies + delta } := by
  unfold findBook at h
  have hb := List.find?_some h
  rw [find?_adjustBooks, h]
  simp only [Option.map_some']
  rw [if_pos hb]

lemma find?_returnMap (loans : List Loan) (lid id today : Nat) :
    (loans.map (fun l =>
        if l.loan_id == lid then { l with status := "Returned", return_date := some today }
        else l)).find? (fun l => l.loan_id == id) =
      (loans.find? (fun l => l.loan_id == id)).map (fun l =>
        if l.loan_id == lid then { l with status := "Returned", return_date := some today }
        else l) := by
  rw [List.find?_map]
  have hp : ((fun l : Loan => l.loan_id == id) ∘ (fun l =>
      if l.loan_id == lid then { l with status := "Returned", return_date := some today }
      else l)) = (fun l : Loan => l.loan_id == id) := by
    funext l
    by_cases h : l.loan_id == lid <;> simp [Function.comp, h]
  rw [hp]

lemma findLoan_applyReturn {today : Nat} {s : St} {lid : Nat} {loan : Loan}
    (h : findLoan s lid = some loan) :
    findLoan (applyReturn today s lid) lid =
      some { loan with status := "Returned", return_date := some today } := by
  unfold applyReturn
  rw [h]
  unfold findLoan at h ⊢
  have hl := List.find?_some h
  simp only []
  rw [find?_returnMap, h]
  simp only [Option.map_some']
  rw [if_pos hl]

lemma return_book_loan_none {today : Nat} {s : St} {lid : Nat}
    (h : findLoan s lid = none) :
    return_book today s lid = (s, .error ⟨404, "Loan not found"⟩) := by
  simp [return_book, return_bookFI, h]

lemma return_book_already {today : Nat} {s : St} {lid : Nat} {loan : Loan}
    (h : findLoan s lid = some loan) (hst : loan.status = "Returned") :
    return_book today s lid = (s, .error ⟨400, "Book already returned"⟩) := by
  simp [return_book, return_bookFI, h, hst]

lemma return_book_go (today : Nat) {s : St} {lid : Nat} {loan : Loan}
    (h : findLoan s lid = some loan) (hst : loan.status ≠ "Returned") :
    return_book today s lid =
      (applyReturn today s lid,
       match findLoan (applyReturn today s lid) lid with
       | none => .error storageErr
       | some updated => .ok updated) := by
  simp only [return_book, return_bookFI, h, applyReturn]
  simp [hst]

lemma delete_loan_none {s : St} {lid : Nat} (h : findLoan s lid = none) :
    delete_loan s lid = (s, .error ⟨404, "Loan not found"⟩) := by
  simp [delete_loan, delete_loanFI, h]

lemma delete_loan_borrowed {s : St} {lid : Nat} {loan : Loan}
    (h : findLoan s lid = some loan) (hst : loan.status = "Borrowed") :
    delete_loan s lid =
      ({ s with books := adjustBooks s.books loan.book_id 1,
                loans := s.loans.filter (fun l => l.loan_id != lid) }, .ok ()) := by
  simp [delete_loan, delete_loanFI, h, hst]

lemma delete_loan_not_borrowed {s : St} {lid : Nat} {loan : Loan}
    (h : findLoan s lid = some loan) (hst : loan.status ≠ "Borrowed") :
    delete_loan s lid =
      ({ s with loans := s.loans.filter (fun l => l.loan_id != lid) }, .ok ()) := by
  simp [delete_loan, delete_loanFI, h, hst]

lemma findBook_applyCreate {today : Nat} {s : St} {loan : LoanCreate} {b : Book}
    (hb : findBook s loan.book_id = some b) :
    findBook (applyCreate today s loan) loan.book_id =
      some { b with available_copies := b.available_copies + (-1) } := by
  unfold applyCreate findBook
  simp only []
  exact findBook_adjust (-1) hb

lemma findBook_applyReturn (today : Nat) {s : St} {lid : Nat} {loan : Loan} {b : Book}
    (h : findLoan s lid = some loan) (hb : findBook s loan.book_id = some b) :
    findBook (applyReturn today s lid) loan.book_id =
      some { b with available_copies := b.available_copies + 1 } := by
  unfold applyReturn
  rw [h]
  unfold findBook
  simp only []
  exact findBook_adjust 1 hb

lemma return_book_ok {today : Nat} {s s' : St} {lid : Nat} {l : Loan}
    (h : return_book today s lid = (s', .ok l)) :
    ∃ loan, findLoan s lid = some loan ∧ loan.status ≠ "Returned" ∧
      s' = applyReturn today s lid ∧
      l = { loan with status := "Returned", return_date := some today } := by
  rcases hl : findLoan s lid with _ | loan
  · rw [return_book_loan_none hl] at h
    simp at h
  · by_cases hst : loan.status = "Returned"
    · rw [return_book_already hl hst] at h
      simp at h
    · rw [return_book_go today hl hst, findLoan_applyReturn hl] at h
      simp only [Prod.mk.injEq, Except.ok.injEq] at h
      exact ⟨loan, rfl, hst, h.1.symm, h.2.symm⟩

lemma create_loan_fst (today : Nat) (s : St) (loan : LoanCreate) :
    (create_loan today s loan).1 = s ∨
      ((create_loan today s loan).1 = applyCreate today s loan ∧
       ∃ book, findBook s loan.book_id = some book ∧ 0 < book.available_copies) := by
  rcases hb : findBook s loan.book_id with _ | book
  · left
    rw [create_loan_book_none hb]
  · by_cases hav : book.available_copies ≤ 0
    · left
      rw [create_loan_unavailable hb hav]
    · rcases hm : findMember s loan.member_id with _ | m
      · left
        rw [create_loan_member_none hb hav hm]
      · right
        rw [create_loan_go hb hav hm]
        exact ⟨rfl, book, rfl, by omega⟩

/-! ### Concrete states used by witnesses and counterexamples -/

/-- A member row. -/
def wM : Member := ⟨1, "Ada", "Lovelace", "ada@lib.org", none, "Active"⟩

/-- A book with one copy, one available. -/
def wBook : Book := ⟨1, "i1", "T", "A", none, 1, 1⟩

/-- One member, one available book, no loans. -/
def wSt : St := ⟨[wM], [wBook], [], 1⟩

/-- An issue request for book 1 by member 1 with the default status. -/
def wReq : LoanCreate := ⟨1, 1, none, "Borrowed"⟩

/-- The loan row created by issuing `wReq` against `wSt` on day 100. -/
def wLoan : Loan := ⟨1, 1, 1, 100, 114, "Borrowed", none⟩

/-- `wSt` after that issue. -/
def wSt1 : St := ⟨[wM], [⟨1, "i1", "T", "A", none, 0, 1⟩], [wLoan], 2⟩

/-- The loan row after returning it on day 105. -/
def wLoanRet : Loan := ⟨1, 1, 1, 100, 114, "Returned", some 105⟩

/-- `wSt1` after that return. -/
def wSt2 : St := ⟨[wM], [wBook], [wLoanRet], 2⟩

/-- A state with a Borrowed loan on a book whose counter is already at
`total_copies`. -/
def rSt : St := ⟨[wM], [wBook], [⟨1, 1, 1, 90, 104, "Borrowed", none⟩], 2⟩

/-- A state whose only loan is Returned. -/
def retSt : St := ⟨[wM], [wBook], [⟨1, 1, 1, 90, 104, "Returned", some 95⟩], 2⟩

/-- A state whose only loan has the client-supplied status `"Pending"`. -/
def pSt : St := ⟨[wM], [wBook], [⟨1, 1, 1, 90, 104, "Pending", none⟩], 2⟩

/-- A state whose book has `available_copies = 0`. -/
def zSt : St := ⟨[wM], [⟨1, "i1", "T", "A", none, 0, 1⟩], [], 1⟩

/-- A state with no books. -/
def nSt : St := ⟨[wM], [], [], 1⟩

/-- Claim C1, amended: for every issue (`POST /loans`) that passes its
existence and availability guards, the loan row is inserted and committed
with `loan_date` equal to today and with the client-supplied `status` field
(which pydantic defaults to `"Borrowed"` only when the client omits it),
together with the availability decrement; the response, however, is not the
created loan: the endpoint reads `cursor.lastrowid` after the intervening
`UPDATE books` statement, which has reset it to 0, so whenever no loan row
carries id 0 (always, with MySQL auto-increment ids, which are positive) the
post-commit fetch finds no row and the endpoint returns a 500 instead of the
created record. -/
theorem c1_issue_row_and_response (today : Nat) (s : St) (loan : LoanCreate)
    (book : Book) (m : Member)
    (hb : findBook s loan.book_id = some book) (hpos : 0 < book.available_copies)
    (hm : findMember s loan.member_id = some m)
    (h0 : ∀ l ∈ s.loans, l.loan_id ≠ 0) (hn0 : s.nextLoanId ≠ 0) :
    create_loan today s loan = (applyCreate today s loan, .error validationErr) ∧
    (applyCreate today s loan).loans = s.loans ++ [newLoanRow today s loan] ∧
    (newLoanRow today s loan).loan_date = today ∧
    (newLoanRow today s loan).status = loan.status ∧
    (newLoanRow today s loan).loan_id = s.nextLoanId := by
  have hav : ¬ book.available_copies ≤ 0 := by omega
  rw [create_loan_go hb hav hm, findLoan_applyCreate_zero h0 hn0]
  exact ⟨rfl, rfl, rfl, rfl, rfl⟩

/-- Witness for C1 on a concrete state: the issue against `wSt` commits the
row and the decrement but answers 500. -/
theorem c1_issue_row_and_response_witness :
    create_loan 100 wSt wReq = (wSt1, .error validationErr) ∧
    wSt1.loans = wSt.loans ++ [wLoan] ∧
    wLoan.loan_date = 100 ∧ wLoan.status = wReq.status ∧ wLoan.loan_id = wSt.nextLoanId :=
  c1_issue_row_and_response 100 wSt wReq wBook wM rfl (by decide) rfl (by decide) (by decide)

/-- Counterexample to C1 as stated: issuing with a client-supplied status
`"Pending"` commits a loan row whose status is `"Pending"`, not `"Borrowed"`,
and the operation's response is a 500 error, not the created loan. -/
theorem c1_counterexample :
    (create_loan 100 wSt ⟨1, 1, none, "Pending"⟩).1.loans =
      [⟨1, 1, 1, 100, 114, "Pending", none⟩] ∧
    "Pending" ≠ "Borrowed" ∧
    (create_loan 100 wSt ⟨1, 1, none, "Pending"⟩).2 = .error validationErr :=
  ⟨rfl, by decide, rfl⟩

/-- Claim C2, amended: the issue operation preserves
`0 ≤ available_copies ≤ total_copies` for every item row (given distinct
primary keys), but the invariant is not preserved by every operation: item
update writes the client-supplied counters unchecked. -/
theorem c2_issue_preserves_counter_invariant (today : Nat) (s : St) (loan : LoanCreate)
    (hOk : booksOk s) (hu : uniqueBookIds s) :
    booksOk (create_loan today s loan).1 := by
  rcases create_loan_fst today s loan with h | ⟨h, book, hb, hpos⟩
  · rw [h]
    exact hOk
  · rw [h]
    intro b' hb'
    have hb2 : b' ∈ adjustBooks s.books loan.book_id (-1) := hb'
    unfold adjustBooks at hb2
    rcases List.mem_map.mp hb2 with ⟨b, hbmem, rfl⟩
    by_cases hid : (b.book_id == loan.book_id) = true
    · have hbe : b = book :=
        eq_of_mem_find?_uniqueKeys Book.book_id hu hb hbmem (by simpa using hid)
      obtain ⟨h0, h1⟩ := hOk b hbmem
      subst hbe
      rw [if_pos hid]
      constructor
      · show (0 : Int) ≤ b.available_copies + (-1)
        omega
      · show b.available_copies + (-1) ≤ b.total_copies
        omega
    · rw [if_neg hid]
      exact hOk b hbmem

/-- Witness for C2 on a concrete state. -/
theorem c2_issue_preserves_counter_invariant_witness :
    booksOk (create_loan 100 wSt wReq).1 :=
  c2_issue_preserves_counter_invariant 100 wSt wReq (by decide) (by decide)

/-- Counterexample to C2 as stated: `PUT /books/{id}` overwrites the counters
with the client-supplied values, so an update with
`available_copies = 5 > 2 = total_copies` succeeds and breaks the invariant. -/
theorem c2_counterexample :
    booksOk wSt ∧ uniqueBookIds wSt ∧
    (update_book wSt 1 ⟨"i1", "T", "A", none, 5, 2⟩).2 = .ok ⟨1, "i1", "T", "A", none, 5, 2⟩ ∧
    ¬ booksOk (update_book wSt 1 ⟨"i1", "T", "A", none, 5, 2⟩).1 :=
  ⟨by decide, by decide, rfl, by decide⟩

/-- Claim C3, amended: every run of a state-changing loan operation — with a
database failure injected at any call — leaves either the initial state or
the operation's complete transaction effect; a partially applied state (loan
row mutated without the counter adjustment, or vice versa) is never
observable.  (Failures in the post-commit result fetch of issue and return
surface an error with the complete effect already committed, which is the
counterexample to the claim as stated.) -/
theorem c3_all_or_nothing (fail : Nat → Bool) (today : Nat) (s : St) (loan : LoanCreate)
    (lid : Nat) :
    ((create_loanFI fail today s loan).1 = s ∨
       (create_loanFI fail today s loan).1 = applyCreate today s loan) ∧
    ((return_bookFI fail today s lid).1 = s ∨
       (return_bookFI fail today s lid).1 = applyReturn today s lid) ∧
    ((delete_loanFI fail s lid).1 = s ∨
       (delete_loanFI fail s lid).1 = applyDeleteLoan s lid) :=
  ⟨create_loanFI_states fail today s loan, return_bookFI_states fail today s lid,
   delete_loanFI_states fail s lid⟩

/-- Counterexample to C3 as stated: a failure in the fetch that follows
`conn.commit()` inside issue makes the operation report an error while both
of its effects remain committed. -/
theorem c3_counterexample :
    (create_loanFI (fun k => k == 5) 100 wSt wReq).2 = .error storageErr ∧
    (create_loanFI (fun k => k == 5) 100 wSt wReq).1 ≠ wSt ∧
    (create_loanFI (fun k => k == 5) 100 wSt wReq).1 = applyCreate 100 wSt wReq :=
  ⟨rfl, by decide, rfl⟩

/-- Claim C5: an issue request whose item is absent fails 404 "Book not
found" with the state unchanged; one whose item exists with
`available_copies ≤ 0` fails 400 "Book not available for loan" with the state
unchanged (no loan is created in either case). -/
theorem c5_issue_availability_guards (today : Nat) (s : St) (loan : LoanCreate) :
    (findBook s loan.book_id = none →
       create_loan today s loan = (s, .error ⟨404, "Book not found"⟩)) ∧
    (∀ book, findBook s loan.book_id = some book → book.available_copies ≤ 0 →
       create_loan today s loan = (s, .error ⟨400, "Book not available for loan"⟩)) :=
  ⟨fun h => create_loan_book_none h, fun _ hb h0 => create_loan_unavailable hb h0⟩

/-- Witness for C5 on concrete states. -/
theorem c5_issue_availability_guards_witness :
    create_loan 100 nSt wReq = (nSt, .error ⟨404, "Book not found"⟩) ∧
    create_loan 100 zSt wReq = (zSt, .error ⟨400, "Book not available for loan"⟩) :=
  ⟨(c5_issue_availability_guards 100 nSt wReq).1 rfl,
   (c5_issue_availability_guards 100 zSt wReq).2 ⟨1, "i1", "T", "A", none, 0, 1⟩ rfl (by decide)⟩

/-- Claim C6: `PUT /loans/{id}/return` fails 404 when the loan is absent,
fails 400 "Book already returned" when its status is `"Returned"`, and
otherwise marks the loan `"Returned"` with `return_date = today`, increments
the referenced item's `available_copies` by exactly 1, and responds with the
updated loan. -/
theorem c6_return_transitions (today : Nat) (s : St) (lid : Nat) :
    (findLoan s lid = none → return_book today s lid = (s, .error ⟨404, "Loan not found"⟩)) ∧
    (∀ loan, findLoan s lid = some loan → loan.status = "Returned" →
       return_book today s lid = (s, .error ⟨400, "Book already returned"⟩)) ∧
    (∀ loan, findLoan s lid = some loan → loan.status ≠ "Returned" →
       (return_book today s lid).2 =
         .ok { loan with status := "Returned", return_date := some today } ∧
       findLoan (return_book today s lid).1 lid =
         some { loan with status := "Returned", return_date := some today } ∧
       (∀ b, findBook s loan.book_id = some b →
          findBook (return_book today s lid).1 loan.book_id =
            some { b with available_copies := b.available_copies + 1 })) := by
  refine ⟨fun h => return_book_loan_none h, fun loan h hst => return_book_already h hst, ?_⟩
  intro loan h hst
  have hgo := return_book_go today h hst
  have h1 : (return_book today s lid).1 = applyReturn today s lid := by rw [hgo]
  refine ⟨?_, ?_, ?_⟩
  · rw [hgo, findLoan_applyReturn h]
  · rw [h1, findLoan_applyReturn h]
  · intro b hb
    rw [h1]
    exact findBook_applyReturn today h hb

/-- Witness for C6 on a concrete state. -/
theorem c6_return_transitions_witness :
    (return_book 100 rSt 1).2 = .ok ⟨1, 1, 1, 90, 104, "Returned", some 100⟩ ∧
    findLoan (return_book 100 rSt 1).1 1 = some ⟨1, 1, 1, 90, 104, "Returned", some 100⟩ ∧
    findBook (return_book 100 rSt 1).1 1 = some ⟨1, "i1", "T", "A", none, 2, 1⟩ := by
  have h := (c6_return_transitions 100 rSt 1).2.2 ⟨1, 1, 1, 90, 104, "Borrowed", none⟩ rfl
    (by decide)
  exact ⟨h.1, h.2.1, h.2.2 wBook rfl⟩

/-- Claim C7: `DELETE /loans/{id}` fails 404 when the loan is absent; deleting
a Borrowed loan removes the row and increments the referenced item's
`available_copies` by exactly 1; deleting a Returned loan removes the row and
leaves the books table unchanged. -/
theorem c7_delete_loan_transitions (s : St) (lid : Nat) :
    (findLoan s lid = none → delete_loan s lid = (s, .error ⟨404, "Loan not found"⟩)) ∧
    (∀ loan, findLoan s lid = some loan → loan.status = "Borrowed" →
       delete_loan s lid =
         ({ s with books := adjustBooks s.books loan.book_id 1,
                   loans := s.loans.filter (fun l => l.loan_id != lid) }, .ok ()) ∧
       (∀ b, findBook s loan.book_id = some b →
          findBook (delete_loan s lid).1 loan.book_id =
            some { b with available_copies := b.available_copies + 1 })) ∧
    (∀ loan, findLoan s lid = some loan → loan.status = "Returned" →
       delete_loan s lid =
         ({ s with loans := s.loans.filter (fun l => l.loan_id != lid) }, .ok ())) := by
  refine ⟨fun h => delete_loan_none h, ?_, ?_⟩
  · intro loan h hst
    refine ⟨delete_loan_borrowed h hst, ?_⟩
    intro b hb
    rw [delete_loan_borrowed h hst]
    unfold findBook
    simp only []
    exact findBook_adjust 1 hb
  · intro loan h hst
    exact delete_loan_not_borrowed h (by rw [hst]; decide)

/-- Witness for C7 on concrete states. -/
theorem c7_delete_loan_transitions_witness :
    delete_loan rSt 1 = (⟨[wM], [⟨1, "i1", "T", "A", none, 2, 1⟩], [], 2⟩, .ok ()) ∧
    findBook (delete_loan rSt 1).1 1 = some ⟨1, "i1", "T", "A", none, 2, 1⟩ ∧
    delete_loan retSt 1 = (⟨[wM], [wBook], [], 2⟩, .ok ()) := by
  have hB := (c7_delete_loan_transitions rSt 1).2.1 ⟨1, 1, 1, 90, 104, "Borrowed", none⟩ rfl rfl
  have hR := (c7_delete_loan_transitions retSt 1).2.2 ⟨1, 1, 1, 90, 104, "Returned", some 95⟩
    rfl rfl
  exact ⟨hB.1, hB.2 wBook rfl, hR⟩

/-- Claim C8: an issue that passes its guards (item present and available,
member present) commits the loan insert and the decrement, and a successful
return of the created loan row (the row with id `s.nextLoanId`) restores the
item's `available_copies` to its pre-issue value — the whole looked-up item
row is restored.  (The issue is stated by its guard conditions rather than an
`ok` response because the endpoint's `lastrowid` slip — see C1 — makes it
answer 500 after committing, so a response-based premise would be vacuous.) -/
theorem c8_issue_return_roundtrip (t1 t2 : Nat) (s : St) (loan : LoanCreate)
    (s2 : St) (l2 : Loan) (b : Book) (m : Member)
    (hfresh : freshLoanId s)
    (hb : findBook s loan.book_id = some b) (hpos : 0 < b.available_copies)
    (hm : findMember s loan.member_id = some m)
    (h2 : return_book t2 (create_loan t1 s loan).1 s.nextLoanId = (s2, .ok l2)) :
    findBook s2 loan.book_id = some b := by
  have hav : ¬ b.available_copies ≤ 0 := by omega
  have hfst : (create_loan t1 s loan).1 = applyCreate t1 s loan := by
    rw [create_loan_go hb hav hm]
  rw [hfst] at h2
  obtain ⟨ln, hln, hst, rfl, _⟩ := return_book_ok h2
  have hln2 : findLoan (applyCreate t1 s loan) s.nextLoanId = some (newLoanRow t1 s loan) :=
    findLoan_applyCreate hfresh
  rw [hln2] at hln
  injection hln with hln
  subst hln
  have hb1 : findBook (applyCreate t1 s loan) loan.book_id =
      some { b with available_copies := b.available_copies + (-1) } :=
    findBook_applyCreate hb
  have hfin := findBook_applyReturn t2 hln2 hb1
  have hrec : ({ b with available_copies := b.available_copies + (-1) + 1 } : Book) = b := by
    cases b
    simp only [Book.mk.injEq, and_true, true_and]
    omega
  rw [hrec] at hfin
  exact hfin

/-- Witness for C8 on a concrete state: issue against `wSt` on day 100, then
return of the created row (id 1) on day 105; the book row is restored. -/
theorem c8_issue_return_roundtrip_witness : findBook wSt2 1 = some wBook :=
  c8_issue_return_roundtrip 100 105 wSt wReq wSt2 wLoanRet wBook wM
    (by decide) rfl (by decide) rfl rfl

/-- Claim C9: deleting a member (or book) referenced by any loan whose status
is not `"Returned"` fails 400 with the state unchanged; deleting an existing
member (or book) all of whose referencing loans are `"Returned"` succeeds and
removes the record. -/
theorem c9_delete_blocked_by_active_loans (s : St) (mid bid : Nat) :
    ((∃ l ∈ s.loans, l.member_id = mid ∧ l.status ≠ "Returned") →
       delete_member s mid = (s, .error ⟨400, "Cannot delete member with active loans"⟩)) ∧
    (∀ m, findMember s mid = some m →
       (∀ l ∈ s.loans, l.member_id = mid → l.status = "Returned") →
       delete_member s mid =
         ({ s with members := s.members.filter (fun x => x.member_id != mid) }, .ok ())) ∧
    ((∃ l ∈ s.loans, l.book_id = bid ∧ l.status ≠ "Returned") →
       delete_book s bid = (s, .error ⟨400, "Cannot delete book with active loans"⟩)) ∧
    (∀ b, findBook s bid = some b →
       (∀ l ∈ s.loans, l.book_id = bid → l.status = "Returned") →
       delete_book s bid =
         ({ s with books := s.books.filter (fun x => x.book_id != bid) }, .ok ())) := by
  refine ⟨?_, ?_, ?_, ?_⟩
  · rintro ⟨l, hl, hm, hst⟩
    rcases hf : s.loans.find? (fun x => x.member_id == mid && x.status != "Returned")
      with _ | x
    · rw [List.find?_eq_none] at hf
      exact absurd (by simp [hm, hst]) (hf l hl)
    · simp [delete_member, hf]
  · intro m hm hall
    have hf : s.loans.find? (fun x => x.member_id == mid && x.status != "Returned") = none := by
      rw [List.find?_eq_none]
      intro x hx
      by_cases hmx : x.member_id = mid
      · simp [hmx, hall x hx hmx]
      · simp [hmx]
    simp [delete_member, hf, hm]
  · rintro ⟨l, hl, hbk, hst⟩
    rcases hf : s.loans.find? (fun x => x.book_id == bid && x.status != "Returned")
      with _ | x
    · rw [List.find?_eq_none] at hf
      exact absurd (by simp [hbk, hst]) (hf l hl)
    · simp [delete_book, hf]
  · intro b hb hall
    have hf : s.loans.find? (fun x => x.book_id == bid && x.status != "Returned") = none := by
      rw [List.find?_eq_none]
      intro x hx
      by_cases hbx : x.book_id = bid
      · simp [hbx, hall x hx hbx]
      · simp [hbx]
    simp [delete_book, hf, hb]

/-- Witness for C9 on concrete states. -/
theorem c9_delete_blocked_by_active_loans_witness :
    delete_member rSt 1 = (rSt, .error ⟨400, "Cannot delete member with active loans"⟩) ∧
    delete_member retSt 1 =
      (⟨[], [wBook], [⟨1, 1, 1, 90, 104, "Returned", some 95⟩], 2⟩, .ok ()) ∧
    delete_book rSt 1 = (rSt, .error ⟨400, "Cannot delete book with active loans"⟩) ∧
    delete_book retSt 1 =
      (⟨[wM], [], [⟨1, 1, 1, 90, 104, "Returned", some 95⟩], 2⟩, .ok ()) := by
  refine ⟨?_, ?_, ?_, ?_⟩
  · exact (c9_delete_blocked_by_active_loans rSt 1 1).1
      ⟨⟨1, 1, 1, 90, 104, "Borrowed", none⟩, by decide, rfl, by decide⟩
  · exact (c9_delete_blocked_by_active_loans retSt 1 1).2.1 wM rfl (by decide)
  · exact (c9_delete_blocked_by_active_loans rSt 1 1).2.2.1
      ⟨⟨1, 1, 1, 90, 104, "Borrowed", none⟩, by decide, rfl, by decide⟩
  · exact (c9_delete_blocked_by_active_loans retSt 1 1).2.2.2 wBook rfl (by decide)

/-- Claim C10: deleting an existing loan whose stored status is neither
`"Borrowed"` nor `"Returned"` removes the row and leaves the books table —
hence every `available_copies` counter — unchanged: the availability
restoration happens only when the stored status is exactly `"Borrowed"`. -/
theorem c10_delete_nonstandard_status (s : St) (lid : Nat) (loan : Loan)
    (h : findLoan s lid = some loan)
    (h1 : loan.status ≠ "Borrowed") (h2 : loan.status ≠ "Returned") :
    delete_loan s lid =
      ({ s with loans := s.loans.filter (fun l => l.loan_id != lid) }, .ok ()) :=
  delete_loan_not_borrowed h h1

/-- Witness for C10 with a loan stored with status `"Pending"`. -/
theorem c10_delete_nonstandard_status_witness :
    delete_loan pSt 1 = (⟨[wM], [wBook], [], 2⟩, .ok ()) :=
  c10_delete_nonstandard_status pSt 1 ⟨1, 1, 1, 90, 104, "Pending", none⟩ rfl
    (by decide) (by decide)
